import Mathlib

/-!
Verification of the OpenMP test-case pattern-extraction pipeline
(`Pattern_Extration/src/core/file_processor.py`,
`Pattern_Extration/src/core/ast_extractor.py`,
`Pattern_Extration/src/database/models.py`), as a shallow embedding.

Python strings are modelled as Lean `String`/`List Char`; the specific
regular expressions used by the code are translated into dedicated scanning
functions (the code only ever uses a fixed finite set of patterns).
Python `set` objects are modelled as first-insertion-order duplicate-free
lists: within one process, CPython set iteration order is a deterministic
function of the inserted elements (string hashes are fixed per process).
-/

namespace OMPPattern

/-- Python `\s` on ASCII text: space, tab, newline, carriage return,
vertical tab, form feed. -/
def pyIsSpace (c : Char) : Bool :=
  c = ' ' || c = '\t' || c = '\n' || c = '\r' || c = '\x0b' || c = '\x0c'

/-- Python `str.splitlines()` restricted to the line terminators that occur
in ASCII test files: `\n`, `\r\n`, `\r`.  No trailing empty line is produced
for a trailing terminator, and `"".splitlines() == []`. -/
def splitlinesAux : List Char → List Char → List String
  | [], acc => if acc.isEmpty then [] else [String.mk acc.reverse]
  | '\n' :: rest, acc => String.mk acc.reverse :: splitlinesAux rest []
  | '\r' :: '\n' :: rest, acc => String.mk acc.reverse :: splitlinesAux rest []
  | '\r' :: rest, acc => String.mk acc.reverse :: splitlinesAux rest []
  | c :: rest, acc => splitlinesAux rest (c :: acc)

def splitlines (s : String) : List String :=
  splitlinesAux s.data []

/-- Python `str.lower()` on the ASCII text the pipeline handles:
character-wise lower-casing. -/
def pyLower (s : String) : String :=
  String.mk (s.data.map Char.toLower)

/-- Python `str.strip()` (whitespace strip on both sides). -/
def pyStrip (s : String) : String :=
  String.mk (((s.data.dropWhile pyIsSpace).reverse.dropWhile pyIsSpace).reverse)

/-- Helper for Python `str.split()` with no argument: accumulate the current
word (reversed) while scanning. -/
def pyWordsAux : List Char → List Char → List String
  | [], acc => if acc.isEmpty then [] else [String.mk acc.reverse]
  | c :: rest, acc =>
    if pyIsSpace c then
      if acc.isEmpty then pyWordsAux rest []
      else String.mk acc.reverse :: pyWordsAux rest []
    else pyWordsAux rest (c :: acc)

/-- Python `str.split()`: whitespace-delimited words, no empty strings. -/
def pyWords (s : String) : List String :=
  pyWordsAux s.data []

/-- Strip a literal character sequence from the front of the input,
returning the remainder (the translation of matching a literal in one of
the code's regular expressions). -/
def dropLit : List Char → List Char → Option (List Char)
  | [], cs => some cs
  | _ :: _, [] => none
  | p :: ps, c :: cs => if p = c then dropLit ps cs else none

/-- Case-insensitive variant of `dropLit`, for the `re.IGNORECASE` patterns. -/
def dropLitCI : List Char → List Char → Option (List Char)
  | [], cs => some cs
  | _ :: _, [] => none
  | p :: ps, c :: cs => if p.toLower = c.toLower then dropLitCI ps cs else none

/-- First index at which `needle` occurs in `hay` (Python `str.find`
without the `-1` encoding). -/
def findSub (needle : List Char) : List Char → Option Nat
  | [] => if needle.isPrefixOf ([] : List Char) then some 0 else none
  | c :: t =>
    if needle.isPrefixOf (c :: t) then some 0
    else (findSub needle t).map (· + 1)

/-- Python `str.find`: first index of `sub` in `s`, `-1` when absent. -/
def strFind (s sub : String) : Int :=
  match findSub sub.data s.data with
  | some i => (i : Int)
  | none => -1

/-- Python `sub in s` substring test. -/
def pyIn (sub s : String) : Bool :=
  (findSub sub.data s.data).isSome

/-! ## Data model (`src/database/models.py`) -/

/-- `CompilerStage` enum. -/
inductive CompilerStage where
  | parse | sema | codegen | ast_print | unknown
deriving DecidableEq, Repr

/-- `TestCategory` enum. -/
inductive TestCategory where
  | parallel | worksharing | target | synchronization | simd | task | general
deriving DecidableEq, Repr

/-- `OpenMPDirective` dataclass.  `column_number` is an `Int` because the
text path stores `line.find('#pragma')`, whose Python type admits `-1`. -/
structure OpenMPDirective where
  name : String
  clauses : List String
  line_number : Nat
  column_number : Int
  full_text : String
deriving DecidableEq, Repr

/-- `ASTNode` dataclass. -/
structure ASTNode where
  node_type : String
  spelling : String
  location : String
  children_count : Nat
  has_openmp : Bool
deriving DecidableEq, Repr

/-- `ParseError` dataclass. -/
structure ParseError where
  error_type : String
  message : String
  line_number : Nat
  column_number : Nat
  severity : String
deriving DecidableEq, Repr

/-- `ExpectedErrorPattern` dataclass. -/
structure ExpectedErrorPattern where
  pattern : String
  error_category : String
  regex_pattern : Option String
  line_number : Nat
deriving DecidableEq, Repr

/-- A Python value as produced by `dataclasses.asdict` / stored in the
plain-`Dict` fields of the model: strings, ints, booleans, `None`, lists
and string-keyed dicts. -/
inductive PyVal where
  | pstr : String → PyVal
  | pint : Int → PyVal
  | pbool : Bool → PyVal
  | pnone : PyVal
  | plist : List PyVal → PyVal
  | pdict : List (String × PyVal) → PyVal

/-- `NegativeTestCharacteristics` dataclass.  `expected_vs_actual_errors`
is an untyped `Dict` in the source, so it is carried as a `PyVal`. -/
structure NegativeTestCharacteristics where
  is_negative_test : Bool
  error_testing_strategy : Option String
  expected_vs_actual_errors : PyVal
  error_coverage_areas : List String
  error_trigger_count : Nat

/-- `TestPattern` dataclass (the `AnalysisRecord` of the spec). -/
structure TestPattern where
  file_path : String
  file_name : String
  file_size : Nat
  compiler_stage : CompilerStage
  run_commands : List String
  compiler_flags : List String
  openmp_directives : List OpenMPDirective
  openmp_version : Option String
  test_category : TestCategory
  check_patterns : List String
  expected_errors : List String
  expected_warnings : List String
  ast_nodes : List ASTNode
  function_declarations : List String
  variable_declarations : List String
  ir_patterns : List String
  runtime_calls : List String
  parse_errors : List ParseError
  expected_error_patterns : List ExpectedErrorPattern
  negative_test_characteristics : NegativeTestCharacteristics
  error_trigger_mechanisms : List String
  error_types : List String
  complexity_score : Nat
  line_count : Nat
  created_timestamp : String

/-! ## Directive extraction

Text path: `FileProcessor._extract_openmp_directives`, which applies
`re.match(r'\s*#pragma\s+omp\s+(.+)', line)` to every line.
Token path: `ASTExtractor._parse_openmp_directive`, fed with
space-joined token text by `_extract_openmp_pragmas`. -/

/-- `re.match(r'\s*#pragma\s+omp\s+(.+)', line)`, returning `group(1)`.
The trailing `\s+(.+)` needs care: `\s+` is greedy but backtracks so that
`.+` (which also matches whitespace, but not `\n`) gets at least one
character.  So if anything follows the whitespace run after `omp`, the
group is the remainder after the full run; if the line ends in the run,
the group is the run's final character provided the run has length ≥ 2. -/
def matchPragmaLine (line : String) : Option String :=
  let cs := line.data.dropWhile pyIsSpace
  match dropLit "#pragma".data cs with
  | none => none
  | some cs =>
    match cs with
    | [] => none
    | c :: _ =>
      if ¬ pyIsSpace c then none
      else
        match dropLit "omp".data (cs.dropWhile pyIsSpace) with
        | none => none
        | some cs =>
          let k := (cs.takeWhile pyIsSpace).length
          if k = 0 then none
          else if k < cs.length then some (String.mk (cs.drop k))
          else if 2 ≤ k then some (String.mk (cs.drop (k - 1)))
          else none

/-- Body of the per-line loop of `FileProcessor._extract_openmp_directives`:
build an `OpenMPDirective` from a matching line (1-based `line_num`). -/
def pragmaOfLine (line_num : Nat) (line : String) : Option OpenMPDirective :=
  match matchPragmaLine line with
  | none => none
  | some g =>
    let directive_text := pyStrip g
    let parts := pyWords directive_text
    some { name := parts.headD ""
           clauses := parts.drop 1
           line_number := line_num
           column_number := strFind line "#pragma"
           full_text := pyStrip line }

def extractDirectivesAux : Nat → List String → List OpenMPDirective
  | _, [] => []
  | n, line :: rest =>
    match pragmaOfLine n line with
    | some d => d :: extractDirectivesAux (n + 1) rest
    | none => extractDirectivesAux (n + 1) rest

/-- `FileProcessor._extract_openmp_directives`. -/
def extract_openmp_directives (content : String) : List OpenMPDirective :=
  extractDirectivesAux 1 (splitlines content)

/-- A clang source location as exposed on tokens (`location.line`,
`location.column`, both 1-based). -/
structure SourceLocation where
  line : Nat
  column : Nat
deriving DecidableEq, Repr

/-- `ASTExtractor._parse_openmp_directive`: parse the space-joined token
text of a pragma (e.g. `"# pragma omp parallel"`). -/
def parse_openmp_directive (pragma_text : String) (location : SourceLocation) :
    Option OpenMPDirective :=
  let parts := pyWords pragma_text
  if parts.length < 3 then none
  else if ¬ (parts.get? 1 = some "pragma" ∧ parts.get? 2 = some "omp") then none
  else some { name := (parts.get? 3).getD ""
              clauses := parts.drop 4
              line_number := location.line
              column_number := (location.column : Int)
              full_text := pragma_text }

/-! ## Scanners for the fixed regex patterns of `FileProcessor`

`pyFindall` models `re.findall`: scan left to right, emit non-overlapping
matches, resume after each match end, advance one character on failure.
The fuel argument (initialised to the input length) only bounds the
recursion; every matcher used here consumes at least one character, so the
fuel never runs out before the input does. -/

def findallAux (tryAt : List Char → Option (List Char × List Char)) :
    Nat → List Char → List String
  | 0, _ => []
  | _, [] => []
  | fuel + 1, c :: rest =>
    match tryAt (c :: rest) with
    | some (g, after) => String.mk g :: findallAux tryAt fuel after
    | none => findallAux tryAt fuel rest

def pyFindall (tryAt : List Char → Option (List Char × List Char))
    (s : String) : List String :=
  findallAux tryAt s.data.length s.data

/-- `re.search`: first match, scanning positions left to right. -/
def pySearch (tryAt : List Char → Option (List Char)) : List Char → Option (List Char)
  | [] => tryAt []
  | c :: rest =>
    match tryAt (c :: rest) with
    | some g => some g
    | none => pySearch tryAt rest

/-- The suffix pattern `\s*(.+)` shared by the `RUN:`/`CHECK`/expected
annotation regexes, returning `(group(1), remainder after the match)`.
`\s` also matches `\n`, so the greedy whitespace run may cross line ends;
`.+` then takes the rest of that line.  When the input is whitespace only,
backtracking hands the last non-newline whitespace character to `.+`. -/
def matchWsDotPlus (cs : List Char) : Option (List Char × List Char) :=
  let m := (cs.takeWhile pyIsSpace).length
  let rest := cs.drop m
  match rest with
  | _ :: _ =>
    let g := rest.takeWhile (fun c => c ≠ '\n')
    some (g, rest.drop g.length)
  | [] =>
    match cs.reverse.dropWhile (fun c => c = '\n') with
    | [] => none
    | h :: _ => some ([h], (cs.reverse.takeWhile (fun c => c = '\n')).reverse)

/-- `[^:]*:`: skip to just past the first colon (failing without one);
`[^:]` also matches newlines. -/
def skipToColon : List Char → Option (List Char)
  | [] => none
  | c :: rest => if c = ':' then some rest else skipToColon rest

/-- Match `//\s*RUN:\s*(.+)` at the head of the input. -/
def matchRunAt (cs : List Char) : Option (List Char × List Char) := do
  let cs ← dropLit "//".data cs
  let cs ← dropLit "RUN:".data (cs.dropWhile pyIsSpace)
  matchWsDotPlus cs

/-- Match `//\s*CHECK[^:]*:\s*(.+)` at the head of the input. -/
def matchCheckAt (cs : List Char) : Option (List Char × List Char) := do
  let cs ← dropLit "//".data cs
  let cs ← dropLit "CHECK".data (cs.dropWhile pyIsSpace)
  let cs ← skipToColon cs
  matchWsDotPlus cs

/-- Match `//\s*<key>[^:]*:\s*(.+)` at the head of the input
(used with `expected-error` and `expected-warning`). -/
def matchAnnotAt (key : String) (cs : List Char) : Option (List Char × List Char) := do
  let cs ← dropLit "//".data cs
  let cs ← dropLit key.data (cs.dropWhile pyIsSpace)
  let cs ← skipToColon cs
  matchWsDotPlus cs

/-- `FileProcessor._extract_run_commands`. -/
def extract_run_commands (content : String) : List String :=
  (pyFindall matchRunAt content).map pyStrip

/-- `FileProcessor._extract_check_patterns`. -/
def extract_check_patterns (content : String) : List String :=
  (pyFindall matchCheckAt content).map pyStrip

/-- `FileProcessor._extract_expected_errors`. -/
def extract_expected_errors (content : String) : List String :=
  (pyFindall (matchAnnotAt "expected-error") content).map pyStrip

/-- `FileProcessor._extract_expected_warnings`. -/
def extract_expected_warnings (content : String) : List String :=
  (pyFindall (matchAnnotAt "expected-warning") content).map pyStrip

/-- Character class `[a-zA-Z0-9-]` of the compiler-flag pattern. -/
def isFlagChar (c : Char) : Bool := c.isAlpha || c.isDigit || c = '-'

/-- Match `(-[a-zA-Z0-9-]+)` at the head of the input. -/
def matchFlagAt : List Char → Option (List Char × List Char)
  | '-' :: rest =>
    let run := rest.takeWhile isFlagChar
    if run.isEmpty then none else some ('-' :: run, rest.drop run.length)
  | _ => none

/-- Python-set model: add an element, keeping first-insertion order. -/
def pySetAdd {α : Type} [DecidableEq α] (l : List α) (x : α) : List α :=
  if x ∈ l then l else l ++ [x]

/-- Python-set model: the set of a list's elements, in first-insertion
order (CPython iteration order is deterministic per process). -/
def pySetOfList {α : Type} [DecidableEq α] (xs : List α) : List α :=
  xs.foldl pySetAdd []

/-- `FileProcessor._extract_compiler_flags`: `flags` is a `set` updated
across all run commands, returned as `list(flags)`. -/
def extract_compiler_flags (run_commands : List String) : List String :=
  pySetOfList (run_commands.flatMap (fun cmd => pyFindall matchFlagAt cmd))

/-- `FileProcessor._determine_compiler_stage`. -/
def determine_compiler_stage (run_commands : List String) (content : String) :
    CompilerStage :=
  let _ := content
  let run_text := pyLower (String.intercalate " " run_commands)
  if pyIn "-fsyntax-only" run_text || pyIn "-verify" run_text then .sema
  else if pyIn "-ast-print" run_text || pyIn "-ast-dump" run_text then .ast_print
  else if pyIn "-emit-llvm" run_text || pyIn "filecheck" run_text then .codegen
  else if run_commands.any (fun cmd => pyIn "parse" (pyLower cmd)) then .parse
  else .unknown

/-- Match `-fopenmp-version=(\d+)` at the head of the input, returning
`group(1)`. -/
def versionFlagAt (cs : List Char) : Option (List Char) := do
  let cs ← dropLit "-fopenmp-version=".data cs
  let ds := cs.takeWhile Char.isDigit
  if ds.isEmpty then none else some ds

/-- Match `OpenMP\s+(\d+\.\d+)` (IGNORECASE) at the head of the input,
returning `group(1)`. -/
def versionTextAt (cs : List Char) : Option (List Char) := do
  let cs ← dropLitCI "OpenMP".data cs
  let m := (cs.takeWhile pyIsSpace).length
  if m = 0 then none
  else
    let cs := cs.drop m
    let d1 := cs.takeWhile Char.isDigit
    if d1.isEmpty then none
    else
      match cs.drop d1.length with
      | '.' :: cs2 =>
        let d2 := cs2.takeWhile Char.isDigit
        if d2.isEmpty then none else some (d1 ++ '.' :: d2)
      | _ => none

/-- `FileProcessor._extract_openmp_version`. -/
def extract_openmp_version (content : String) (run_commands : List String) :
    Option String :=
  match run_commands.filterMap (fun cmd => pySearch versionFlagAt cmd.data) with
  | g :: _ => some (String.mk g)
  | [] => (pySearch versionTextAt content.data).map String.mk

/-- The fixed IR keyword list of `_extract_ir_patterns`. -/
def ir_keywords : List String :=
  ["call", "invoke", "alloca", "load", "store", "br", "ret",
   "define", "declare", "getelementptr", "bitcast", "icmp"]

/-- `FileProcessor._extract_ir_patterns`. -/
def extract_ir_patterns (check_patterns : List String) : List String :=
  check_patterns.filter (fun p => ir_keywords.any (fun k => pyIn k (pyLower p)))

/-- Character class `[a-zA-Z_]` of the runtime-call pattern. -/
def isIdentChar (c : Char) : Bool := c.isAlpha || c = '_'

/-- Match `@(__kmpc_[a-zA-Z_]+|omp_[a-zA-Z_]+)` at the head of the input,
returning `group(1)`; the alternatives are tried left to right. -/
def runtimeCallAt : List Char → Option (List Char)
  | '@' :: rest =>
    (match dropLit "__kmpc_".data rest with
     | some r2 =>
       let run := r2.takeWhile isIdentChar
       if run.isEmpty then none else some ("__kmpc_".data ++ run)
     | none => none) <|>
    (match dropLit "omp_".data rest with
     | some r2 =>
       let run := r2.takeWhile isIdentChar
       if run.isEmpty then none else some ("omp_".data ++ run)
     | none => none)
  | _ => none

/-- `FileProcessor._extract_runtime_calls`: collected per check pattern,
then deduplicated via `list(set(...))`. -/
def extract_runtime_calls (check_patterns : List String) : List String :=
  pySetOfList (check_patterns.filterMap
    (fun p => (pySearch runtimeCallAt p.data).map String.mk))

/-! ## Error triggers, diagnostic classification, error patterns -/

/-- Character class `\w` = `[a-zA-Z0-9_]`. -/
def isWordChar (c : Char) : Bool := c.isAlpha || c.isDigit || c = '_'

/-- Match `#pragma\s+omp\s+\w+.*?(?=\n)` (IGNORECASE) at the head of the
input; the whole match (original casing) is returned.  The lookahead
`(?=\n)` makes the match run to the end of the current line and fail when
no newline follows; backtracking into `\s+`/`\w+` can never rescue a
failure, since shorter runs leave a whitespace/word character where a word
/newline character is required. -/
def matchPragmaTrigger (cs : List Char) : Option (List Char × List Char) := do
  let t1 ← dropLitCI "#pragma".data cs
  match t1 with
  | [] => none
  | c :: _ =>
    if ¬ pyIsSpace c then none
    else
      let t2 := t1.dropWhile pyIsSpace
      let t3 ← dropLitCI "omp".data t2
      match t3 with
      | [] => none
      | c2 :: _ =>
        if ¬ pyIsSpace c2 then none
        else
          let t4 := t3.dropWhile pyIsSpace
          let w := t4.takeWhile isWordChar
          if w.isEmpty then none
          else
            let t5 := t4.drop w.length
            let r := t5.takeWhile (fun x => x ≠ '\n')
            let t6 := t5.drop r.length
            match t6 with
            | '\n' :: _ => some (cs.take (cs.length - t6.length), t6)
            | _ => none

/-- The `.*?"([^"]+)"` tail of the expected-error/warning trigger
patterns: scan forward (not past a newline, since `.` cannot consume one)
for a `"` followed by at least one non-quote character and a closing `"`;
an opening quote whose body fails is consumed by the non-greedy `.*?` and
scanning continues.  Returns `(group(1), remainder after the match)`. -/
def quoteScan : List Char → Option (List Char × List Char)
  | [] => none
  | c :: rest =>
    if c = '"' then
      let g := rest.takeWhile (fun x => x ≠ '"')
      match rest.drop g.length with
      | '"' :: r2 => if g.isEmpty then quoteScan rest else some (g, r2)
      | _ => quoteScan rest
    else if c = '\n' then none
    else quoteScan rest

/-- Match `<key>.*?"([^"]+)"` (IGNORECASE) at the head of the input. -/
def matchQuoteTrigger (key : String) (cs : List Char) :
    Option (List Char × List Char) := do
  let t1 ← dropLitCI key.data cs
  quoteScan t1

/-- Match `<key>.*` (IGNORECASE) at the head of the input, returning the
whole match in its original casing (used for `// ERROR:.*`, `// FIXME:.*`). -/
def matchCommentTrigger (key : String) (cs : List Char) :
    Option (List Char × List Char) := do
  let t1 ← dropLitCI key.data cs
  let r := t1.takeWhile (fun x => x ≠ '\n')
  some (cs.take (cs.length - t1.length + r.length), t1.drop r.length)

/-- `FileProcessor._extract_error_triggers`: five `re.findall` passes in a
fixed order, each match contributing `"<trigger_type>: <match>"`. -/
def extract_error_triggers (content : String) : List String :=
  (pyFindall matchPragmaTrigger content).map (fun m => "openmp_directive: " ++ m) ++
  (pyFindall (matchQuoteTrigger "expected-error") content).map
    (fun m => "expected_error: " ++ m) ++
  (pyFindall (matchQuoteTrigger "expected-warning") content).map
    (fun m => "expected_warning: " ++ m) ++
  (pyFindall (matchCommentTrigger "// ERROR:") content).map
    (fun m => "error_comment: " ++ m) ++
  (pyFindall (matchCommentTrigger "// FIXME:") content).map
    (fun m => "fixme_comment: " ++ m)

/-- `FileProcessor._classify_expected_error`. -/
def classify_expected_error (expected_error : String) : String :=
  let e := pyLower expected_error
  if pyIn "clause" e then "clause_error"
  else if pyIn "directive" e then "directive_error"
  else if pyIn "syntax" e || pyIn "expected" e then "syntax_error"
  else if pyIn "semantic" e || pyIn "type" e then "semantic_error"
  else if pyIn "undeclared" e || pyIn "undefined" e then "declaration_error"
  else "general_error"

/-- The `\x7d\x7d`-terminated tail of `re.search(r'\x7b\x7b.*?\x7d\x7d', s)`:
minimal non-newline run up to the first `\x7d\x7d`, returned with the
closing braces. -/
def findCloseBraces : List Char → Option (List Char)
  | [] => none
  | c :: rest =>
    if c = '\x7d' then
      match rest with
      | r :: _ =>
        if r = '\x7d' then some [c, r]
        else if c = '\n' then none
        else (findCloseBraces rest).map (fun t => c :: t)
      | [] => none
    else if c = '\n' then none
    else (findCloseBraces rest).map (fun t => c :: t)

/-- Scan for `\x7b\x7b.*?\x7d\x7d`; when an opening `\x7b\x7b` has no
closing pair, the search resumes one character later. -/
def regexSearchAux : List Char → Option (List Char)
  | [] => none
  | c :: rest =>
    if c = '\x7b' then
      match rest with
      | r :: rest2 =>
        if r = '\x7b' then
          match findCloseBraces rest2 with
          | some t => some (c :: r :: t)
          | none => regexSearchAux rest
        else regexSearchAux rest
      | [] => none
    else regexSearchAux rest

/-- `FileProcessor._extract_regex_pattern`: the first
`\x7b\x7b...\x7d\x7d` fragment of an expected-error text, if any. -/
def extract_regex_pattern (expected_error : String) : Option String :=
  (regexSearchAux expected_error.data).map String.mk

/-- The result dictionary of `FileProcessor._categorize_error_patterns`
(fixed keys; `error_types` is a Python `set`, modelled in first-insertion
order). -/
structure ErrorPatternsInfo where
  parse_errors : List ParseError
  expected_patterns : List ExpectedErrorPattern
  trigger_mechanisms : List String
  error_types : List String
deriving Repr

/-- `FileProcessor._categorize_error_patterns`. -/
def categorize_error_patterns (parse_errors : List ParseError)
    (expected_errors : List String) (content : String) : ErrorPatternsInfo :=
  let error_types := pySetOfList (parse_errors.map (fun e => e.error_type))
  let expected_patterns :=
    ((splitlines content).enum).flatMap (fun il =>
      (expected_errors.filter (fun ex => pyIn ex il.2)).map (fun ex =>
        { pattern := ex
          error_category := classify_expected_error ex
          regex_pattern := extract_regex_pattern ex
          line_number := il.1 + 1 : ExpectedErrorPattern }))
  { parse_errors := parse_errors
    expected_patterns := expected_patterns
    trigger_mechanisms := extract_error_triggers content
    error_types := error_types }

/-! ## Expected-vs-actual error correlation
(`FileProcessor._map_expected_to_actual_errors`)

Python dicts are modelled as association lists with unique keys:
assignment to an existing key overwrites in place (keeping the key's
original position, as CPython does), a new key is appended; iteration is
in insertion order. -/

/-- `d[k] = v` on a Python dict. -/
def dictInsert {α : Type} (k : Nat) (v : α) : List (Nat × α) → List (Nat × α)
  | [] => [(k, v)]
  | (k', v') :: rest =>
    if k' = k then (k, v) :: rest else (k', v') :: dictInsert k v rest

/-- `d.get(k)` / `d[k]` lookup on a Python dict. -/
def dictLookup {α : Type} (k : Nat) : List (Nat × α) → Option α
  | [] => none
  | (k', v) :: rest => if k' = k then some v else dictLookup k rest

/-- `expected_by_line = {p.line_number: p for p in expected_patterns}`:
later patterns on the same line overwrite earlier ones. -/
def expectedByLine (expected_patterns : List ExpectedErrorPattern) :
    List (Nat × ExpectedErrorPattern) :=
  expected_patterns.foldl (fun d p => dictInsert p.line_number p d) []

/-- Append an error to its line's bucket (`actual_by_line` loop). -/
def bucketAdd (k : Nat) (e : ParseError) :
    List (Nat × List ParseError) → List (Nat × List ParseError)
  | [] => [(k, [e])]
  | (k', es) :: rest =>
    if k' = k then (k', es ++ [e]) :: rest else (k', es) :: bucketAdd k e rest

/-- `actual_by_line`: parse errors grouped by line, buckets in encounter
order of their first error. -/
def actualByLine (parse_errors : List ParseError) : List (Nat × List ParseError) :=
  parse_errors.foldl (fun d e => bucketAdd e.line_number e d) []

/-- One entry of the `matched_errors` list:
`{'line': ..., 'expected': ..., 'actual': [...]}`. -/
structure MatchedError where
  line : Nat
  expected : String
  actual : List String
deriving DecidableEq, Repr

/-- The mapping dictionary returned by
`FileProcessor._map_expected_to_actual_errors` (fixed keys). -/
structure ErrorMapping where
  total_expected : Nat
  total_actual : Nat
  matched_errors : List MatchedError
  unmatched_expected : List String
  unexpected_errors : List String
deriving DecidableEq, Repr

/-- `FileProcessor._map_expected_to_actual_errors`.  The single loop over
`expected_by_line.items()` routes each item into `matched_errors` or
`unmatched_expected`; it is rendered as one `filterMap` per destination
list, which preserves both contents and order. -/
def map_expected_to_actual_errors (expected_patterns : List ExpectedErrorPattern)
    (parse_errors : List ParseError) : ErrorMapping :=
  let ebl := expectedByLine expected_patterns
  let abl := actualByLine parse_errors
  { total_expected := expected_patterns.length
    total_actual := parse_errors.length
    matched_errors := ebl.filterMap (fun le =>
      (dictLookup le.1 abl).map (fun errs =>
        { line := le.1, expected := le.2.pattern
          actual := errs.map (fun e => e.message) }))
    unmatched_expected := ebl.filterMap (fun le =>
      match dictLookup le.1 abl with
      | some _ => none
      | none => some le.2.pattern)
    unexpected_errors := abl.flatMap (fun le =>
      match dictLookup le.1 (expectedByLine expected_patterns) with
      | some _ => []
      | none => le.2.map (fun e => e.message)) }

/-! ## Negative-test characteristics, categorization, complexity -/

/-- Encoding of an `ErrorMapping` as the plain dict the Python code stores
in `NegativeTestCharacteristics.expected_vs_actual_errors`. -/
def mappingToPy (m : ErrorMapping) : PyVal :=
  .pdict [("total_expected", .pint m.total_expected),
          ("total_actual", .pint m.total_actual),
          ("matched_errors", .plist (m.matched_errors.map (fun me =>
            .pdict [("line", .pint me.line), ("expected", .pstr me.expected),
                    ("actual", .plist (me.actual.map .pstr))]))),
          ("unmatched_expected", .plist (m.unmatched_expected.map .pstr)),
          ("unexpected_errors", .plist (m.unexpected_errors.map .pstr))]

/-- The `negative_indicators` list of `_is_negative_test_case`. -/
def negative_indicators : List String :=
  ["messages", "error", "warn", "diag", "negative", "invalid", "bad", "fail", "wrong"]

/-- `FileProcessor._is_negative_test_case` (the `file_path.name` of the
source is passed as `file_name`). -/
def is_negative_test_case (file_name : String) (content : String) : Bool :=
  let filename := pyLower file_name
  if negative_indicators.any (fun ind => pyIn ind filename) then true
  else if pyIn "expected-error" content || pyIn "expected-warning" content then true
  else false

/-- Construct keyword lists of `_identify_error_coverage_areas`. -/
def openmp_constructs : List String :=
  ["parallel", "for", "sections", "single", "task", "target",
   "teams", "distribute", "simd", "atomic", "critical", "barrier"]

/-- Clause keyword list of `_identify_error_coverage_areas`. -/
def openmp_clauses : List String :=
  ["private", "shared", "reduction", "schedule", "collapse",
   "nowait", "ordered", "default", "copyin", "copyprivate"]

/-- `FileProcessor._identify_error_coverage_areas` (its `error_patterns`
argument is unused in the source body; the `coverage_areas` set is
modelled in insertion order). -/
def identify_error_coverage_areas (content : String)
    (error_patterns : ErrorPatternsInfo) : List String :=
  let _ := error_patterns
  let content_lower := pyLower content
  let s := openmp_constructs.foldl
    (fun acc c => if pyIn c content_lower then pySetAdd acc c else acc) []
  openmp_clauses.foldl
    (fun acc c => if pyIn c content_lower then pySetAdd acc (c ++ "_clause") else acc) s

/-- `FileProcessor._extract_negative_test_characteristics`. -/
def extract_negative_test_characteristics (file_name : String) (content : String)
    (error_patterns : ErrorPatternsInfo) : NegativeTestCharacteristics :=
  let is_negative := is_negative_test_case file_name content
  if is_negative then
    let filename := pyLower file_name
    { is_negative_test := true
      error_testing_strategy := some
        (if pyIn "messages" filename then "error_message_validation"
         else if pyIn "syntax" filename then "syntax_validation"
         else if pyIn "semantic" filename then "semantic_validation"
         else "general_error_testing")
      expected_vs_actual_errors := mappingToPy
        (map_expected_to_actual_errors error_patterns.expected_patterns
          error_patterns.parse_errors)
      error_coverage_areas := identify_error_coverage_areas content error_patterns
      error_trigger_count := error_patterns.trigger_mechanisms.length }
  else
    { is_negative_test := false
      error_testing_strategy := none
      expected_vs_actual_errors := .pdict []
      error_coverage_areas := []
      error_trigger_count := error_patterns.trigger_mechanisms.length }

/-- `FileProcessor._categorize_test`. -/
def categorize_test (filename : String) (directives : List OpenMPDirective)
    (content : String) : TestCategory :=
  let filename_lower := pyLower filename
  let content_lower := pyLower content
  let directive_names := directives.map (fun d => pyLower d.name)
  if pyIn "parallel" filename_lower
      || directive_names.any (fun n => pyIn "parallel" n)
      || pyIn "parallel" content_lower then .parallel
  else if pyIn "for" filename_lower || pyIn "sections" filename_lower
      || directive_names.any (fun n => n = "for" || n = "sections" || n = "single")
    then .worksharing
  else if pyIn "target" filename_lower
      || directive_names.any (fun n => pyIn "target" n) then .target
  else if pyIn "atomic" filename_lower || pyIn "critical" filename_lower
      || directive_names.any (fun n => n = "atomic" || n = "critical" || n = "barrier")
    then .synchronization
  else if pyIn "simd" filename_lower
      || directive_names.any (fun n => pyIn "simd" n) then .simd
  else if pyIn "task" filename_lower
      || directive_names.any (fun n => pyIn "task" n) then .task
  else .general

/-- The fields of the dictionary returned by
`ASTExtractor.extract_patterns` that `process_test_file` consumes
(`ast_nodes`, `function_declarations`, `variable_declarations`,
`parse_errors`; the declaration entries reach the record only through
`str(...)`, so they are carried as their string renderings).  The parser
is an external capability; a degraded parse yields `emptyAstPatterns`,
matching `{}.get(key, [])`. -/
structure ASTPatterns where
  ast_nodes : List ASTNode
  function_declarations : List String
  variable_declarations : List String
  parse_errors : List ParseError

/-- The empty dictionary `{}` returned by `extract_patterns` on failure. -/
def emptyAstPatterns : ASTPatterns :=
  { ast_nodes := [], function_declarations := [],
    variable_declarations := [], parse_errors := [] }

/-- `FileProcessor._calculate_complexity_score`. -/
def calculate_complexity_score (directives : List OpenMPDirective)
    (check_patterns : List String) (expected_errors : List String)
    (ast_patterns : ASTPatterns) (error_patterns : ErrorPatternsInfo) : Nat :=
  let score := 0
  let score := score + directives.length * 2
  let score := score + (directives.map (fun d => d.clauses.length)).sum
  let score := score + check_patterns.length
  let score := score + expected_errors.length * 2
  let score := score + ast_patterns.function_declarations.length / 2
  let score := score + error_patterns.parse_errors.length
  let score := score + error_patterns.error_types.length
  min score 10

/-- `FileProcessor.process_test_file`.  The file system and the external
parser are capabilities: `readResult` is the outcome of the
existence check plus `_read_file_content` (`none` = missing/unreadable),
`file_size` stands for `file_path.stat().st_size`, `ast` for
`ast_extractor.extract_patterns(file_path)`, and `now` for
`datetime.now().isoformat()`.  `if not content: return None` makes the
empty string fall through to `None` as well. -/
def process_test_file (file_path file_name : String) (file_size : Nat)
    (readResult : Option String) (ast : ASTPatterns) (now : String) :
    Option TestPattern :=
  match readResult with
  | none => none
  | some content =>
    if content = "" then none
    else
      let run_commands := extract_run_commands content
      let compiler_flags := extract_compiler_flags run_commands
      let compiler_stage := determine_compiler_stage run_commands content
      let openmp_directives := extract_openmp_directives content
      let openmp_version := extract_openmp_version content run_commands
      let check_patterns := extract_check_patterns content
      let expected_errors := extract_expected_errors content
      let expected_warnings := extract_expected_warnings content
      let error_patterns := categorize_error_patterns ast.parse_errors expected_errors content
      let negative_test_info := extract_negative_test_characteristics file_name content error_patterns
      let ir_patterns := extract_ir_patterns check_patterns
      let runtime_calls := extract_runtime_calls check_patterns
      let test_category := categorize_test file_name openmp_directives content
      let complexity_score := calculate_complexity_score openmp_directives
        check_patterns expected_errors ast error_patterns
      some { file_path := file_path
             file_name := file_name
             file_size := file_size
             compiler_stage := compiler_stage
             run_commands := run_commands
             compiler_flags := compiler_flags
             openmp_directives := openmp_directives
             openmp_version := openmp_version
             test_category := test_category
             check_patterns := check_patterns
             expected_errors := expected_errors
             expected_warnings := expected_warnings
             ast_nodes := ast.ast_nodes
             function_declarations := ast.function_declarations
             variable_declarations := ast.variable_declarations
             ir_patterns := ir_patterns
             runtime_calls := runtime_calls
             parse_errors := error_patterns.parse_errors
             expected_error_patterns := error_patterns.expected_patterns
             negative_test_characteristics := negative_test_info
             error_trigger_mechanisms := error_patterns.trigger_mechanisms
             error_types := error_patterns.error_types
             complexity_score := complexity_score
             line_count := (splitlines content).length
             created_timestamp := now }

/-! ## Serialization (`TestPattern.to_dict` / `TestPattern.from_dict`)

`to_dict` is `dataclasses.asdict` (recursive conversion of nested
dataclasses to dicts, lists copied, enums left as objects) followed by the
explicit replacement of the two enum fields by their `.value` strings.
`from_dict` rebuilds the enums and the nested dataclass lists; plain
fields are passed through by `cls(**data)`, typed here by the partial
decoders (on `to_dict` output all decoders succeed). -/

/-- `.value` of a `CompilerStage` member. -/
def CompilerStage.value : CompilerStage → String
  | .parse => "parse"
  | .sema => "sema"
  | .codegen => "codegen"
  | .ast_print => "ast_print"
  | .unknown => "unknown"

/-- `CompilerStage(s)`: look a member up by value (raises, i.e. `none`,
on an unknown value). -/
def CompilerStage.ofValue (s : String) : Option CompilerStage :=
  if s = "parse" then some .parse
  else if s = "sema" then some .sema
  else if s = "codegen" then some .codegen
  else if s = "ast_print" then some .ast_print
  else if s = "unknown" then some .unknown
  else none

/-- `.value` of a `TestCategory` member. -/
def TestCategory.value : TestCategory → String
  | .parallel => "parallel"
  | .worksharing => "worksharing"
  | .target => "target"
  | .synchronization => "synchronization"
  | .simd => "simd"
  | .task => "task"
  | .general => "general"

/-- `TestCategory(s)`: look a member up by value. -/
def TestCategory.ofValue (s : String) : Option TestCategory :=
  if s = "parallel" then some .parallel
  else if s = "worksharing" then some .worksharing
  else if s = "target" then some .target
  else if s = "synchronization" then some .synchronization
  else if s = "simd" then some .simd
  else if s = "task" then some .task
  else if s = "general" then some .general
  else none

/-- Optional strings serialize as the value or `None`. -/
def optStrToPy : Option String → PyVal
  | some s => .pstr s
  | none => .pnone

/-- `asdict` on an `OpenMPDirective`. -/
def OpenMPDirective.to_dict (d : OpenMPDirective) : List (String × PyVal) :=
  [("name", .pstr d.name),
   ("clauses", .plist (d.clauses.map .pstr)),
   ("line_number", .pint (d.line_number : Int)),
   ("column_number", .pint d.column_number),
   ("full_text", .pstr d.full_text)]

/-- `asdict` on an `ASTNode`. -/
def ASTNode.to_dict (n : ASTNode) : List (String × PyVal) :=
  [("node_type", .pstr n.node_type),
   ("spelling", .pstr n.spelling),
   ("location", .pstr n.location),
   ("children_count", .pint (n.children_count : Int)),
   ("has_openmp", .pbool n.has_openmp)]

/-- `asdict` on a `ParseError`. -/
def ParseError.to_dict (e : ParseError) : List (String × PyVal) :=
  [("error_type", .pstr e.error_type),
   ("message", .pstr e.message),
   ("line_number", .pint (e.line_number : Int)),
   ("column_number", .pint (e.column_number : Int)),
   ("severity", .pstr e.severity)]

/-- `asdict` on an `ExpectedErrorPattern`. -/
def ExpectedErrorPattern.to_dict (p : ExpectedErrorPattern) : List (String × PyVal) :=
  [("pattern", .pstr p.pattern),
   ("error_category", .pstr p.error_category),
   ("regex_pattern", optStrToPy p.regex_pattern),
   ("line_number", .pint (p.line_number : Int))]

/-- `asdict` on a `NegativeTestCharacteristics`; the untyped
`expected_vs_actual_errors` dict is copied through unchanged. -/
def NegativeTestCharacteristics.to_dict (n : NegativeTestCharacteristics) :
    List (String × PyVal) :=
  [("is_negative_test", .pbool n.is_negative_test),
   ("error_testing_strategy", optStrToPy n.error_testing_strategy),
   ("expected_vs_actual_errors", n.expected_vs_actual_errors),
   ("error_coverage_areas", .plist (n.error_coverage_areas.map .pstr)),
   ("error_trigger_count", .pint (n.error_trigger_count : Int))]

/-- `TestPattern.to_dict`. -/
def TestPattern.to_dict (p : TestPattern) : List (String × PyVal) :=
  [("file_path", .pstr p.file_path),
   ("file_name", .pstr p.file_name),
   ("file_size", .pint (p.file_size : Int)),
   ("compiler_stage", .pstr p.compiler_stage.value),
   ("run_commands", .plist (p.run_commands.map .pstr)),
   ("compiler_flags", .plist (p.compiler_flags.map .pstr)),
   ("openmp_directives", .plist (p.openmp_directives.map (fun d => .pdict d.to_dict))),
   ("openmp_version", optStrToPy p.openmp_version),
   ("test_category", .pstr p.test_category.value),
   ("check_patterns", .plist (p.check_patterns.map .pstr)),
   ("expected_errors", .plist (p.expected_errors.map .pstr)),
   ("expected_warnings", .plist (p.expected_warnings.map .pstr)),
   ("ast_nodes", .plist (p.ast_nodes.map (fun n => .pdict n.to_dict))),
   ("function_declarations", .plist (p.function_declarations.map .pstr)),
   ("variable_declarations", .plist (p.variable_declarations.map .pstr)),
   ("ir_patterns", .plist (p.ir_patterns.map .pstr)),
   ("runtime_calls", .plist (p.runtime_calls.map .pstr)),
   ("parse_errors", .plist (p.parse_errors.map (fun e => .pdict e.to_dict))),
   ("expected_error_patterns", .plist (p.expected_error_patterns.map (fun q => .pdict q.to_dict))),
   ("negative_test_characteristics", .pdict p.negative_test_characteristics.to_dict),
   ("error_trigger_mechanisms", .plist (p.error_trigger_mechanisms.map .pstr)),
   ("error_types", .plist (p.error_types.map .pstr)),
   ("complexity_score", .pint (p.complexity_score : Int)),
   ("line_count", .pint (p.line_count : Int)),
   ("created_timestamp", .pstr p.created_timestamp)]

/-- Dict lookup by key (Python `data['k']`, `none` = `KeyError`). -/
def dget : List (String × PyVal) → String → Option PyVal
  | [], _ => none
  | (k', v) :: rest, k => if k' = k then some v else dget rest k

def PyVal.asStr : PyVal → Option String
  | .pstr s => some s
  | _ => none

def PyVal.asNat : PyVal → Option Nat
  | .pint n => n.toNat'
  | _ => none

def PyVal.asInt : PyVal → Option Int
  | .pint n => some n
  | _ => none

def PyVal.asBool : PyVal → Option Bool
  | .pbool b => some b
  | _ => none

def PyVal.asOptStr : PyVal → Option (Option String)
  | .pstr s => some (some s)
  | .pnone => some none
  | _ => none

/-- Decode every element of a serialized list. -/
def decodeList {α : Type} (f : PyVal → Option α) : List PyVal → Option (List α)
  | [] => some []
  | v :: vs =>
    match f v, decodeList f vs with
    | some a, some tail => some (a :: tail)
    | _, _ => none

def decodeStrList : PyVal → Option (List String)
  | .plist vs => decodeList PyVal.asStr vs
  | _ => none

/-- `OpenMPDirective(**d)` on a serialized directive dict. -/
def OpenMPDirective.from_dict (v : PyVal) : Option OpenMPDirective :=
  match v with
  | .pdict d => do
    let name ← (dget d "name").bind PyVal.asStr
    let clauses ← (dget d "clauses").bind decodeStrList
    let line_number ← (dget d "line_number").bind PyVal.asNat
    let column_number ← (dget d "column_number").bind PyVal.asInt
    let full_text ← (dget d "full_text").bind PyVal.asStr
    some { name := name, clauses := clauses, line_number := line_number,
           column_number := column_number, full_text := full_text }
  | _ => none

/-- `ASTNode(**n)` on a serialized node dict. -/
def ASTNode.from_dict (v : PyVal) : Option ASTNode :=
  match v with
  | .pdict d => do
    let node_type ← (dget d "node_type").bind PyVal.asStr
    let spelling ← (dget d "spelling").bind PyVal.asStr
    let location ← (dget d "location").bind PyVal.asStr
    let children_count ← (dget d "children_count").bind PyVal.asNat
    let has_openmp ← (dget d "has_openmp").bind PyVal.asBool
    some { node_type := node_type, spelling := spelling, location := location,
           children_count := children_count, has_openmp := has_openmp }
  | _ => none

/-- `ParseError(**e)` on a serialized error dict. -/
def ParseError.from_dict (v : PyVal) : Option ParseError :=
  match v with
  | .pdict d => do
    let error_type ← (dget d "error_type").bind PyVal.asStr
    let message ← (dget d "message").bind PyVal.asStr
    let line_number ← (dget d "line_number").bind PyVal.asNat
    let column_number ← (dget d "column_number").bind PyVal.asNat
    let severity ← (dget d "severity").bind PyVal.asStr
    some { error_type := error_type, message := message, line_number := line_number,
           column_number := column_number, severity := severity }
  | _ => none

/-- `ExpectedErrorPattern(**p)` on a serialized pattern dict. -/
def ExpectedErrorPattern.from_dict (v : PyVal) : Option ExpectedErrorPattern :=
  match v with
  | .pdict d => do
    let pattern ← (dget d "pattern").bind PyVal.asStr
    let error_category ← (dget d "error_category").bind PyVal.asStr
    let regex_pattern ← (dget d "regex_pattern").bind PyVal.asOptStr
    let line_number ← (dget d "line_number").bind PyVal.asNat
    some { pattern := pattern, error_category := error_category,
           regex_pattern := regex_pattern, line_number := line_number }
  | _ => none

/-- `NegativeTestCharacteristics(**d)`; the inner
`expected_vs_actual_errors` dict stays as it is. -/
def NegativeTestCharacteristics.from_dict (v : PyVal) :
    Option NegativeTestCharacteristics :=
  match v with
  | .pdict d => do
    let is_negative_test ← (dget d "is_negative_test").bind PyVal.asBool
    let error_testing_strategy ← (dget d "error_testing_strategy").bind PyVal.asOptStr
    let expected_vs_actual_errors ← dget d "expected_vs_actual_errors"
    let error_coverage_areas ← (dget d "error_coverage_areas").bind decodeStrList
    let error_trigger_count ← (dget d "error_trigger_count").bind PyVal.asNat
    some { is_negative_test := is_negative_test
           error_testing_strategy := error_testing_strategy
           expected_vs_actual_errors := expected_vs_actual_errors
           error_coverage_areas := error_coverage_areas
           error_trigger_count := error_trigger_count }
  | _ => none

/-- Decode a serialized list of directive dicts
(`[OpenMPDirective(**d) ...]`). -/
def decodeDirectiveList : PyVal → Option (List OpenMPDirective)
  | .plist vs => decodeList OpenMPDirective.from_dict vs
  | _ => none

/-- Decode a serialized list of AST-node dicts (`[ASTNode(**n) ...]`). -/
def decodeAstNodeList : PyVal → Option (List ASTNode)
  | .plist vs => decodeList ASTNode.from_dict vs
  | _ => none

/-- Decode a serialized list of parse-error dicts (`[ParseError(**e) ...]`). -/
def decodeParseErrorList : PyVal → Option (List ParseError)
  | .plist vs => decodeList ParseError.from_dict vs
  | _ => none

/-- Decode a serialized list of expected-error-pattern dicts
(`[ExpectedErrorPattern(**p) ...]`). -/
def decodeEEPList : PyVal → Option (List ExpectedErrorPattern)
  | .plist vs => decodeList ExpectedErrorPattern.from_dict vs
  | _ => none

/-- `str`-valued enum decoding: `CompilerStage(data['compiler_stage'])`. -/
def decodeStage (v : PyVal) : Option CompilerStage :=
  (PyVal.asStr v).bind CompilerStage.ofValue

/-- `str`-valued enum decoding: `TestCategory(data['test_category'])`. -/
def decodeCategory (v : PyVal) : Option TestCategory :=
  (PyVal.asStr v).bind TestCategory.ofValue

/-- First third of the field decoding of `TestPattern.from_dict`
(`cls(**data)` binds fields by name; the decoding is split into three
groups purely to keep terms small). -/
def fromDictA (data : List (String × PyVal)) :
    Option (String × String × Nat × CompilerStage × List String × List String ×
      List OpenMPDirective × Option String) := do
  let file_path ← (dget data "file_path").bind PyVal.asStr
  let file_name ← (dget data "file_name").bind PyVal.asStr
  let file_size ← (dget data "file_size").bind PyVal.asNat
  let compiler_stage ← (dget data "compiler_stage").bind decodeStage
  let run_commands ← (dget data "run_commands").bind decodeStrList
  let compiler_flags ← (dget data "compiler_flags").bind decodeStrList
  let openmp_directives ← (dget data "openmp_directives").bind decodeDirectiveList
  let openmp_version ← (dget data "openmp_version").bind PyVal.asOptStr
  some (file_path, file_name, file_size, compiler_stage, run_commands,
    compiler_flags, openmp_directives, openmp_version)

/-- Second third of the field decoding of `TestPattern.from_dict`. -/
def fromDictB (data : List (String × PyVal)) :
    Option (TestCategory × List String × List String × List String ×
      List ASTNode × List String × List String × List String × List String) := do
  let test_category ← (dget data "test_category").bind decodeCategory
  let check_patterns ← (dget data "check_patterns").bind decodeStrList
  let expected_errors ← (dget data "expected_errors").bind decodeStrList
  let expected_warnings ← (dget data "expected_warnings").bind decodeStrList
  let ast_nodes ← (dget data "ast_nodes").bind decodeAstNodeList
  let function_declarations ← (dget data "function_declarations").bind decodeStrList
  let variable_declarations ← (dget data "variable_declarations").bind decodeStrList
  let ir_patterns ← (dget data "ir_patterns").bind decodeStrList
  let runtime_calls ← (dget data "runtime_calls").bind decodeStrList
  some (test_category, check_patterns, expected_errors, expected_warnings,
    ast_nodes, function_declarations, variable_declarations, ir_patterns,
    runtime_calls)

/-- Last third of the field decoding of `TestPattern.from_dict`. -/
def fromDictC (data : List (String × PyVal)) :
    Option (List ParseError × List ExpectedErrorPattern ×
      NegativeTestCharacteristics × List String × List String × Nat × Nat × String) := do
  let parse_errors ← (dget data "parse_errors").bind decodeParseErrorList
  let expected_error_patterns ← (dget data "expected_error_patterns").bind decodeEEPList
  let negative_test_characteristics ←
    (dget data "negative_test_characteristics").bind NegativeTestCharacteristics.from_dict
  let error_trigger_mechanisms ← (dget data "error_trigger_mechanisms").bind decodeStrList
  let error_types ← (dget data "error_types").bind decodeStrList
  let complexity_score ← (dget data "complexity_score").bind PyVal.asNat
  let line_count ← (dget data "line_count").bind PyVal.asNat
  let created_timestamp ← (dget data "created_timestamp").bind PyVal.asStr
  some (parse_errors, expected_error_patterns, negative_test_characteristics,
    error_trigger_mechanisms, error_types, complexity_score, line_count,
    created_timestamp)

/-- `TestPattern.from_dict`: the three field groups combined. -/
def TestPattern.from_dict (data : List (String × PyVal)) : Option TestPattern := do
  let ⟨file_path, file_name, file_size, compiler_stage, run_commands,
    compiler_flags, openmp_directives, openmp_version⟩ ← fromDictA data
  let ⟨test_category, check_patterns, expected_errors, expected_warnings,
    ast_nodes, function_declarations, variable_declarations, ir_patterns,
    runtime_calls⟩ ← fromDictB data
  let ⟨parse_errors, expected_error_patterns, negative_test_characteristics,
    error_trigger_mechanisms, error_types, complexity_score, line_count,
    created_timestamp⟩ ← fromDictC data
  some (TestPattern.mk file_path file_name file_size compiler_stage
    run_commands compiler_flags openmp_directives openmp_version test_category
    check_patterns expected_errors expected_warnings ast_nodes
    function_declarations variable_declarations ir_patterns runtime_calls
    parse_errors expected_error_patterns negative_test_characteristics
    error_trigger_mechanisms error_types complexity_score line_count
    created_timestamp)

/-! ## Auxiliary definitions used by theorem statements -/

/-- Forget the creation timestamp of a record (the one field the
determinism property excludes). -/
def eraseTimestamp (p : TestPattern) : TestPattern :=
  { p with created_timestamp := "" }

/-- Categorization as the specification words it: each category's
predicate is an OR of its keyword list over all three signals
(lower-cased filename, lower-cased directive names, lower-cased body
text), evaluated in the fixed priority order with GENERAL as fallback.
Stated for comparison with `categorize_test`, the function the code
actually implements. -/
def categorize_test_spec (filename : String) (directives : List OpenMPDirective)
    (content : String) : TestCategory :=
  let f := pyLower filename
  let c := pyLower content
  let names := directives.map (fun d => pyLower d.name)
  let sig := fun (kws : List String) =>
    kws.any (fun k => pyIn k f || names.any (fun n => pyIn k n) || pyIn k c)
  if sig ["parallel"] then .parallel
  else if sig ["for", "sections", "single"] then .worksharing
  else if sig ["target"] then .target
  else if sig ["atomic", "critical", "barrier"] then .synchronization
  else if sig ["simd"] then .simd
  else if sig ["task"] then .task
  else .general

/-! ## Bridging lemmas -/

/-- The substring scanner agrees with the infix relation. -/
theorem findSub_isSome_iff {needle : List Char} :
    ∀ {hay : List Char}, (findSub needle hay).isSome = true ↔ needle <:+: hay := by
  intro hay
  induction hay with
  | nil =>
    by_cases h : needle.isPrefixOf ([] : List Char)
    · simp [findSub, h, (List.isPrefixOf_iff_prefix.mp h).isInfix]
    · simp only [findSub, h]
      simp only [Bool.false_eq_true, if_false, Option.isSome_none, false_iff]
      intro hinf
      have hn : needle = [] := List.sublist_nil.mp hinf.sublist
      subst hn
      exact h rfl
  | cons c t ih =>
    by_cases h : needle.isPrefixOf (c :: t)
    · simp [findSub, h, (List.isPrefixOf_iff_prefix.mp h).isInfix]
    · have hstep : findSub needle (c :: t) = (findSub needle t).map (· + 1) := by
        simp [findSub, h]
      rw [hstep]
      have hmap : ((findSub needle t).map (· + 1)).isSome = (findSub needle t).isSome := by
        cases findSub needle t <;> rfl
      rw [hmap, ih, List.infix_cons_iff]
      constructor
      · exact Or.inr
      · rintro (hp | hi)
        · exact absurd (List.isPrefixOf_iff_prefix.mpr hp) h
        · exact hi

/-- `pyIn` agrees with the infix relation on the character lists. -/
theorem pyIn_iff {sub s : String} : pyIn sub s = true ↔ sub.data <:+: s.data :=
  findSub_isSome_iff

/-! ## Claim theorems -/

/-- Counterexample to claim C1: `process_test_file` on a perfectly
readable file whose content is the empty string returns `None` (Python's
`if not content` treats the empty string like a read failure), so the
claim that a record is refused only when the file cannot be read is false. -/
theorem c1_counterexample :
    process_test_file "tests/empty.c" "empty.c" 0 (some "") emptyAstPatterns "t0" = none := rfl

/-- Claim C1, amended: `process_test_file` produces a record exactly when
the file is readable and its content is a non-empty string; a readable
file with empty content is refused together with unreadable files. -/
theorem c1_amended (fp fn : String) (fs : Nat) (r : Option String)
    (ast : ASTPatterns) (now : String) :
    (process_test_file fp fn fs r ast now).isSome ↔ ∃ c, r = some c ∧ c ≠ "" := by
  cases r with
  | none => simp [process_test_file]
  | some c => by_cases h : c = "" <;> simp [process_test_file, h]

/-- Claim C3: the per-file analysis is a pure function of the file
content, its metadata and the parser output; two runs differ only in the
`created_timestamp` field (all other fields, including the element order
of the set-derived lists `compiler_flags`, `runtime_calls`, `error_types`
and `error_coverage_areas`, coincide). -/
theorem c3_determinism (fp fn : String) (fs : Nat) (r : Option String)
    (ast : ASTPatterns) (t1 t2 : String) :
    (process_test_file fp fn fs r ast t1).map eraseTimestamp =
    (process_test_file fp fn fs r ast t2).map eraseTimestamp := by
  cases r with
  | none => rfl
  | some c => by_cases h : c = "" <;> simp [process_test_file, h, eraseTimestamp]

/-- Counterexample to claim C4: a line consisting of exactly
`#pragma omp` is silently dropped by the text-path extractor — the regex
`\s*#pragma\s+omp\s+(.+)` demands a whitespace character plus at least one
further character after `omp`. -/
theorem c4_counterexample : extract_openmp_directives "#pragma omp" = [] := rfl

/-- Claim C4, amended: on the token-reconstructed path a pragma with no
token after `omp` (token text `# pragma omp`) yields a Directive with
`name = ""`; on the text path a line `#pragma omp` followed by two
whitespace characters still yields a `name = ""` Directive, but the bare
line `#pragma omp` (or with a single trailing space) matches nothing and
is silently dropped. -/
theorem c4_amended :
    (∀ loc : SourceLocation,
      (parse_openmp_directive "# pragma omp" loc).map (fun d => d.name) = some "") ∧
    (∀ n : Nat, (pragmaOfLine n "#pragma omp  ").map (fun d => d.name) = some "") ∧
    (∀ n : Nat, pragmaOfLine n "#pragma omp" = none) ∧
    (∀ n : Nat, pragmaOfLine n "#pragma omp " = none) := by
  refine ⟨fun _ => rfl, fun _ => rfl, fun _ => rfl, fun _ => rfl⟩

/-- Counterexample to claim C5: the token-reconstructed path stores the
clang token location's column, not `-1` — parsing `# pragma omp parallel`
at column 3 yields `column_number = 3`. -/
theorem c5_counterexample :
    ((parse_openmp_directive "# pragma omp parallel" ⟨5, 3⟩).map
      (fun d => d.column_number)) ≠ some (-1) := by decide

/-- Claim C5, amended: a Directive from the token-reconstructed path
stores the location column of its leading `#` token, and a Directive from
the raw-text scan stores `line.find('#pragma')`, the index of the leading
marker in the line. -/
theorem c5_amended :
    (∀ (text : String) (loc : SourceLocation) (d : OpenMPDirective),
      parse_openmp_directive text loc = some d → d.column_number = (loc.column : Int)) ∧
    (∀ (n : Nat) (line : String) (d : OpenMPDirective),
      pragmaOfLine n line = some d → d.column_number = strFind line "#pragma") := by
  constructor
  · intro text loc d h
    simp only [parse_openmp_directive] at h
    split_ifs at h
    cases h
    rfl
  · intro n line d h
    cases hm : matchPragmaLine line with
    | none =>
      simp only [pragmaOfLine, hm] at h
      cases h
    | some g =>
      simp only [pragmaOfLine, hm] at h
      cases h
      rfl

/-- Witness for the amended claim C5 at concrete inputs. -/
theorem c5_amended_witness :
    (OpenMPDirective.mk "parallel" [] 5 3 "# pragma omp parallel").column_number =
      ((⟨5, 3⟩ : SourceLocation).column : Int) ∧
    (OpenMPDirective.mk "x" [] 1 2 "#pragma omp x").column_number =
      strFind "  #pragma omp x" "#pragma" :=
  ⟨c5_amended.1 "# pragma omp parallel" ⟨5, 3⟩ _ rfl,
   c5_amended.2 1 "  #pragma omp x" _ rfl⟩

/-- Counterexample to claim C6: the claim's reading — every category an OR
of its keywords over filename, directive names and body text — classifies
a directive-free file `x.c` with body `for loop` as WORKSHARING (keyword
`for` in the body), but `categorize_test` ignores body text for
WORKSHARING and returns GENERAL. -/
theorem c6_counterexample :
    categorize_test_spec "x.c" [] "for loop" = TestCategory.worksharing ∧
    categorize_test "x.c" [] "for loop" = TestCategory.general := by
  constructor <;> rfl

/-- Claim C6, amended: the priority order PARALLEL, WORKSHARING, TARGET,
SYNCHRONIZATION, SIMD, TASK with GENERAL fallback and first match winning
is as claimed, but the signals differ by category: PARALLEL checks all
three signals by substring; WORKSHARING checks the filename for
`for`/`sections` only and the directive names by exact membership in
`for`/`sections`/`single` (never the body); TARGET, SIMD and TASK check
filename and directive names by substring (never the body);
SYNCHRONIZATION checks the filename for `atomic`/`critical` only and the
directive names by exact membership in `atomic`/`critical`/`barrier`
(never the body). -/
theorem c6_amended (filename : String) (ds : List OpenMPDirective) (content : String) :
    categorize_test filename ds content =
      (if "parallel".data <:+: (pyLower filename).data
          ∨ (∃ d ∈ ds, "parallel".data <:+: (pyLower d.name).data)
          ∨ "parallel".data <:+: (pyLower content).data then TestCategory.parallel
       else if "for".data <:+: (pyLower filename).data
          ∨ "sections".data <:+: (pyLower filename).data
          ∨ (∃ d ∈ ds, pyLower d.name = "for" ∨ pyLower d.name = "sections" ∨ pyLower d.name = "single")
        then TestCategory.worksharing
       else if "target".data <:+: (pyLower filename).data
          ∨ (∃ d ∈ ds, "target".data <:+: (pyLower d.name).data) then TestCategory.target
       else if "atomic".data <:+: (pyLower filename).data
          ∨ "critical".data <:+: (pyLower filename).data
          ∨ (∃ d ∈ ds, pyLower d.name = "atomic" ∨ pyLower d.name = "critical" ∨ pyLower d.name = "barrier")
        then TestCategory.synchronization
       else if "simd".data <:+: (pyLower filename).data
          ∨ (∃ d ∈ ds, "simd".data <:+: (pyLower d.name).data) then TestCategory.simd
       else if "task".data <:+: (pyLower filename).data
          ∨ (∃ d ∈ ds, "task".data <:+: (pyLower d.name).data) then TestCategory.task
       else TestCategory.general) := by
  simp only [categorize_test]
  refine if_congr ?_ rfl (if_congr ?_ rfl (if_congr ?_ rfl (if_congr ?_ rfl
    (if_congr ?_ rfl (if_congr ?_ rfl rfl))))) <;>
    simp [List.any_map, List.any_eq_true, Function.comp, pyIn_iff, beq_iff_eq, or_assoc]

/-- Claim C8: a file is a negative test iff its lower-cased name contains
one of the nine indicator substrings, or the body contains the literal
substring `expected-error` or `expected-warning`; in particular
`messages.c` with neither substring in its body is negative by the
filename rule alone. -/
theorem c8_negative_iff :
    (∀ fname content : String,
      is_negative_test_case fname content = true ↔
        ((∃ ind ∈ negative_indicators, ind.data <:+: (pyLower fname).data) ∨
         "expected-error".data <:+: content.data ∨
         "expected-warning".data <:+: content.data)) ∧
    is_negative_test_case "messages.c" "int x;" = true := by
  constructor
  · intro fname content
    simp only [is_negative_test_case]
    split_ifs with h1 h2 <;>
      simp_all [List.any_eq_true, pyIn_iff, Bool.or_eq_true]
  · rfl

/-- Adding to the Python-set model preserves duplicate freedom. -/
theorem pySetAdd_nodup {α : Type} [DecidableEq α] {l : List α} (h : l.Nodup) (x : α) :
    (pySetAdd l x).Nodup := by
  unfold pySetAdd
  split_ifs with hx
  · exact h
  · rw [← List.concat_eq_append]
    exact List.Nodup.concat hx h

/-- Adding to the Python-set model inserts into the element set. -/
theorem pySetAdd_toFinset {α : Type} [DecidableEq α] (l : List α) (x : α) :
    (pySetAdd l x).toFinset = insert x l.toFinset := by
  unfold pySetAdd
  split_ifs with hx
  · rw [Finset.insert_eq_self.mpr (List.mem_toFinset.mpr hx)]
  · simp [List.toFinset_append, Finset.union_comm, Finset.insert_eq]

/-- Folding additions into the Python-set model preserves duplicate
freedom. -/
theorem pySetFoldl_nodup {α : Type} [DecidableEq α] (xs : List α) :
    ∀ acc : List α, acc.Nodup → (xs.foldl pySetAdd acc).Nodup := by
  induction xs with
  | nil => intro acc h; exact h
  | cons x xs ih => intro acc h; exact ih _ (pySetAdd_nodup h x)

/-- The element set of a fold of additions is the union. -/
theorem pySetFoldl_toFinset {α : Type} [DecidableEq α] (xs : List α) :
    ∀ acc : List α, (xs.foldl pySetAdd acc).toFinset = acc.toFinset ∪ xs.toFinset := by
  induction xs with
  | nil => intro acc; simp
  | cons x xs ih =>
    intro acc
    rw [List.foldl_cons, ih, pySetAdd_toFinset]
    simp [List.toFinset_cons, Finset.insert_union, Finset.union_insert]

/-- The Python-set model of a list has one entry per distinct element. -/
theorem pySetOfList_length {α : Type} [DecidableEq α] (xs : List α) :
    (pySetOfList xs).length = xs.toFinset.card := by
  have h1 := pySetFoldl_nodup xs [] List.nodup_nil
  have h2 := pySetFoldl_toFinset xs []
  unfold pySetOfList
  rw [← List.toFinset_card_of_nodup h1, h2]
  simp

/-- Claim C7: the complexity score is exactly
`min(10, 2·#directives + Σ clause tokens + #check patterns +
2·#expected errors + #function declarations div 2 + #diagnostics +
#distinct diagnostic kinds)`, and it never exceeds 10 (it is a `Nat`, so
it is also never below 0). -/
theorem c7_complexity_score (ds : List OpenMPDirective) (cp ee eeAnn : List String)
    (ast : ASTPatterns) (pe : List ParseError) (content : String) :
    calculate_complexity_score ds cp ee ast (categorize_error_patterns pe eeAnn content) =
      min (2 * ds.length + (ds.map (fun d => d.clauses.length)).sum + cp.length +
        2 * ee.length + ast.function_declarations.length / 2 + pe.length +
        (pe.map (fun e => e.error_type)).toFinset.card) 10 ∧
    calculate_complexity_score ds cp ee ast (categorize_error_patterns pe eeAnn content) ≤ 10 := by
  constructor
  · have ht : (categorize_error_patterns pe eeAnn content).error_types =
        pySetOfList (pe.map (fun e => e.error_type)) := rfl
    have hp : (categorize_error_patterns pe eeAnn content).parse_errors = pe := rfl
    simp only [calculate_complexity_score, hp, ht, pySetOfList_length]
    congr 1
    ring
  · simp only [calculate_complexity_score]
    exact Nat.min_le_right _ _

/-- The per-line matcher stamps the line number it is given. -/
theorem pragmaOfLine_line_number {n : Nat} {line : String} {d : OpenMPDirective}
    (h : pragmaOfLine n line = some d) : d.line_number = n := by
  cases hm : matchPragmaLine line with
  | none =>
    simp only [pragmaOfLine, hm] at h
    cases h
  | some g =>
    simp only [pragmaOfLine, hm] at h
    cases h
    rfl

/-- Every directive emitted while scanning from line `n` carries a line
number in `[n, n + number of remaining lines)`. -/
theorem extractDirectivesAux_mem {lines : List String} :
    ∀ {n : Nat} {d : OpenMPDirective}, d ∈ extractDirectivesAux n lines →
      n ≤ d.line_number ∧ d.line_number < n + lines.length := by
  induction lines with
  | nil => intro n d h; cases h
  | cons l ls ih =>
    intro n d h
    simp only [extractDirectivesAux] at h
    cases hm : pragmaOfLine n l with
    | none =>
      rw [hm] at h
      have := ih h
      simp only [List.length_cons]
      omega
    | some d0 =>
      rw [hm] at h
      rcases List.mem_cons.mp h with rfl | hmem
      · have := pragmaOfLine_line_number hm
        simp only [List.length_cons]
        omega
      · have := ih hmem
        simp only [List.length_cons]
        omega

/-- The line numbers of the extracted directives are strictly increasing. -/
theorem extractDirectivesAux_chain (lines : List String) :
    ∀ n : Nat, List.Chain' (fun a b => a.line_number < b.line_number)
      (extractDirectivesAux n lines) := by
  induction lines with
  | nil => intro n; exact List.chain'_nil
  | cons l ls ih =>
    intro n
    simp only [extractDirectivesAux]
    cases hm : pragmaOfLine n l with
    | none => exact ih (n + 1)
    | some d0 =>
      rw [List.chain'_cons']
      refine ⟨?_, ih (n + 1)⟩
      intro y hy
      have hymem : y ∈ extractDirectivesAux (n + 1) ls := List.mem_of_mem_head? hy
      have hbound := extractDirectivesAux_mem hymem
      have hd0 := pragmaOfLine_line_number hm
      omega

/-- Claim C9: the text-path directive extractor is order-preserving (its
directives appear with strictly increasing line numbers, i.e. in
top-to-bottom source order), and every returned line number is a valid
1-based index into the input's line sequence. -/
theorem c9_directive_lines (content : String) :
    List.Chain' (fun a b => a.line_number < b.line_number)
      (extract_openmp_directives content) ∧
    ∀ d ∈ extract_openmp_directives content,
      1 ≤ d.line_number ∧ d.line_number ≤ (splitlines content).length := by
  constructor
  · exact extractDirectivesAux_chain (splitlines content) 1
  · intro d hd
    have := @extractDirectivesAux_mem (splitlines content) 1 d hd
    omega

/-- Witness for claim C9 on a concrete three-line input whose second line
is a pragma. -/
theorem c9_directive_lines_witness :
    1 ≤ (OpenMPDirective.mk "parallel" [] 2 0 "#pragma omp parallel").line_number ∧
    (OpenMPDirective.mk "parallel" [] 2 0 "#pragma omp parallel").line_number ≤
      (splitlines "int x;\n#pragma omp parallel\nint y;").length :=
  (c9_directive_lines "int x;\n#pragma omp parallel\nint y;").2 _ (by
    rw [show extract_openmp_directives "int x;\n#pragma omp parallel\nint y;" =
      [OpenMPDirective.mk "parallel" [] 2 0 "#pragma omp parallel"] from rfl]
    exact List.mem_singleton.mpr rfl)

/-! ## Expected-vs-actual correlation lemmas (claim C10) -/


/-- Assigning a key then looking it up reads the new value; other keys
are untouched. -/
theorem dictLookup_dictInsert {α : Type} (k k' : Nat) (v : α) (d : List (Nat × α)) :
    dictLookup k (dictInsert k' v d) = if k' = k then some v else dictLookup k d := by
  induction d with
  | nil => simp [dictInsert, dictLookup]
  | cons kv rest ih =>
    obtain ⟨k0, v0⟩ := kv
    by_cases h0 : k0 = k'
    · subst h0
      simp only [dictInsert, if_pos rfl, dictLookup]
      split_ifs <;> rfl
    · simp only [dictInsert, if_neg h0, dictLookup]
      by_cases h1 : k0 = k
      · subst h1
        have : ¬ k' = k0 := fun h => h0 h.symm
        simp [this, dictLookup]
      · simp [h1, ih]

/-- Looking up a line after folding the expected-pattern dict: the last
pattern with that line wins, else the accumulator answers. -/
theorem dictLookup_expFold (line : Nat) (ps : List ExpectedErrorPattern) :
    ∀ d : List (Nat × ExpectedErrorPattern),
      dictLookup line (ps.foldl (fun d p => dictInsert p.line_number p d) d) =
        (ps.reverse.find? (fun p => p.line_number == line)).or (dictLookup line d) := by
  induction ps with
  | nil => intro d; simp
  | cons p ps ih =>
    intro d
    rw [List.foldl_cons, ih, List.reverse_cons, List.find?_append,
      dictLookup_dictInsert, Option.or_assoc]
    congr 1
    by_cases h : p.line_number = line <;> simp [List.find?_cons, h]

/-- `expected_by_line` retains, per line, exactly the last pattern of the
input list carrying that line number. -/
theorem expectedByLine_lookup (line : Nat) (ps : List ExpectedErrorPattern) :
    dictLookup line (expectedByLine ps) =
      ps.reverse.find? (fun p => p.line_number == line) := by
  rw [expectedByLine, dictLookup_expFold]
  simp [dictLookup]

/-- Dict assignment evolves the key list exactly like a Python-set add. -/
theorem keys_dictInsert {α : Type} (k : Nat) (v : α) (d : List (Nat × α)) :
    (dictInsert k v d).map Prod.fst = pySetAdd (d.map Prod.fst) k := by
  induction d with
  | nil => simp [dictInsert, pySetAdd]
  | cons kv rest ih =>
    obtain ⟨k0, v0⟩ := kv
    by_cases h0 : k0 = k
    · subst h0
      simp [dictInsert, pySetAdd]
    · have h0' : ¬ k = k0 := fun h => h0 h.symm
      simp only [dictInsert, if_neg h0, List.map_cons, ih, pySetAdd, List.mem_cons]
      by_cases hk : k ∈ rest.map Prod.fst
      · simp [hk, h0']
      · simp [hk, h0']

/-- Key-list evolution across the whole expected-pattern fold. -/
theorem keys_expFold (ps : List ExpectedErrorPattern) :
    ∀ d : List (Nat × ExpectedErrorPattern),
      (ps.foldl (fun d p => dictInsert p.line_number p d) d).map Prod.fst =
        (ps.map (fun p => p.line_number)).foldl pySetAdd (d.map Prod.fst) := by
  induction ps with
  | nil => intro d; rfl
  | cons p ps ih =>
    intro d
    rw [List.foldl_cons, ih, keys_dictInsert, List.map_cons, List.foldl_cons]

/-- The keys of `expected_by_line` are the distinct line numbers in
first-occurrence order. -/
theorem expectedByLine_keys (ps : List ExpectedErrorPattern) :
    (expectedByLine ps).map Prod.fst = pySetOfList (ps.map (fun p => p.line_number)) := by
  rw [expectedByLine, keys_expFold]
  rfl

/-- `expected_by_line` has one entry per distinct line number. -/
theorem expectedByLine_length (ps : List ExpectedErrorPattern) :
    (expectedByLine ps).length = (ps.map (fun p => p.line_number)).toFinset.card := by
  rw [← pySetOfList_length, ← expectedByLine_keys, List.length_map]

/-- A successful lookup exhibits a member of the association list. -/
theorem mem_of_dictLookup {α : Type} {k : Nat} {v : α} :
    ∀ {d : List (Nat × α)}, dictLookup k d = some v → (k, v) ∈ d := by
  intro d
  induction d with
  | nil => intro h; cases h
  | cons kv rest ih =>
    obtain ⟨k0, v0⟩ := kv
    intro h
    simp only [dictLookup] at h
    by_cases h0 : k0 = k
    · subst h0
      rw [if_pos rfl] at h
      cases h
      exact List.mem_cons_self _ _
    · rw [if_neg h0] at h
      exact List.mem_cons_of_mem _ (ih h)

/-- With duplicate-free keys, every member is found by lookup. -/
theorem dictLookup_of_mem {α : Type} {k : Nat} {v : α} :
    ∀ {d : List (Nat × α)}, (d.map Prod.fst).Nodup → (k, v) ∈ d →
      dictLookup k d = some v := by
  intro d
  induction d with
  | nil => intro _ h; cases h
  | cons kv rest ih =>
    obtain ⟨k0, v0⟩ := kv
    intro hnd hm
    simp only [List.map_cons, List.nodup_cons] at hnd
    rcases List.mem_cons.mp hm with heq | hmem
    · cases heq
      simp [dictLookup]
    · have hk0 : k0 ≠ k := by
        intro h0
        subst h0
        exact hnd.1 (List.mem_map.mpr ⟨(k0, v), hmem, rfl⟩)
      simp only [dictLookup, if_neg hk0]
      exact ih hnd.2 hmem

theorem dictLookup_isSome_iff {α : Type} (k : Nat) :
    ∀ d : List (Nat × α), (dictLookup k d).isSome = true ↔ k ∈ d.map Prod.fst := by
  intro d
  induction d with
  | nil => simp [dictLookup]
  | cons kv rest ih =>
    obtain ⟨k0, v0⟩ := kv
    by_cases h0 : k0 = k
    · subst h0
      simp [dictLookup]
    · simp [dictLookup, h0, ih, Ne.symm h0]


/-- The keys of `expected_by_line` are duplicate-free. -/
theorem expectedByLine_keys_nodup (ps : List ExpectedErrorPattern) :
    ((expectedByLine ps).map Prod.fst).Nodup := by
  rw [expectedByLine_keys]
  exact pySetFoldl_nodup _ [] List.nodup_nil

/-- Looking up after appending an error to its line bucket. -/
theorem dictLookup_bucketAdd (k k' : Nat) (e : ParseError) :
    ∀ d : List (Nat × List ParseError),
      dictLookup k (bucketAdd k' e d) =
        if k' = k then
          (match dictLookup k d with
           | some b => some (b ++ [e])
           | none => some [e])
        else dictLookup k d := by
  intro d
  induction d with
  | nil =>
    simp only [bucketAdd, dictLookup]
  | cons kv rest ih =>
    obtain ⟨k0, es⟩ := kv
    by_cases h0 : k0 = k'
    · subst h0
      simp only [bucketAdd, if_pos rfl, dictLookup]
      by_cases h1 : k0 = k
      · subst h1
        simp [dictLookup]
      · simp [dictLookup, h1]
    · simp only [bucketAdd, if_neg h0, dictLookup]
      by_cases h1 : k0 = k
      · subst h1
        have : ¬ k' = k0 := fun h => h0 h.symm
        simp [this]
      · simp only [if_neg h1, ih]

/-- The bucket of a line after grouping is the filter of the errors on
that line, appended to whatever the accumulator already held. -/
theorem bucketFold_lookup (k : Nat) (errs : List ParseError) :
    ∀ acc : List (Nat × List ParseError),
      dictLookup k (errs.foldl (fun d e => bucketAdd e.line_number e d) acc) =
        match dictLookup k acc with
        | some b => some (b ++ errs.filter (fun e => e.line_number == k))
        | none =>
          if errs.filter (fun e => e.line_number == k) = [] then none
          else some (errs.filter (fun e => e.line_number == k)) := by
  induction errs with
  | nil =>
    intro acc
    simp only [List.foldl_nil, List.filter_nil]
    cases dictLookup k acc <;> simp
  | cons e errs ih =>
    intro acc
    rw [List.foldl_cons, ih, dictLookup_bucketAdd]
    by_cases hl : e.line_number = k
    · rw [if_pos hl]
      have hb : (e.line_number == k) = true := beq_iff_eq.mpr hl
      cases hacc : dictLookup k acc with
      | some b => simp [List.filter_cons, hb]
      | none => simp [List.filter_cons, hb]
    · rw [if_neg hl]
      have hb : (e.line_number == k) = false := by
        simp [hl]
      cases hacc : dictLookup k acc with
      | some b => simp [List.filter_cons, hb]
      | none => simp [List.filter_cons, hb]

/-- `actual_by_line` maps each line to the in-order list of parse errors
on it, and holds no entry for lines without errors. -/
theorem actualByLine_lookup (k : Nat) (errs : List ParseError) :
    dictLookup k (actualByLine errs) =
      if errs.filter (fun e => e.line_number == k) = [] then none
      else some (errs.filter (fun e => e.line_number == k)) := by
  rw [actualByLine, bucketFold_lookup]
  rfl

/-- Two `filterMap`s whose successes are complementary split the list
length. -/
theorem length_filterMap_add {α β γ : Type} (f : α → Option β) (g : α → Option γ) :
    ∀ l : List α, (∀ x ∈ l, ((f x).isSome = true ↔ ¬ (g x).isSome = true)) →
      (l.filterMap f).length + (l.filterMap g).length = l.length := by
  intro l
  induction l with
  | nil => intro _; rfl
  | cons x xs ih =>
    intro h
    have hx := h x (List.mem_cons_self _ _)
    have hxs := fun y hy => h y (List.mem_cons_of_mem _ hy)
    cases hf : f x with
    | some b =>
      cases hg : g x with
      | some c =>
        rw [hf, hg] at hx
        simp at hx
      | none =>
        simp only [List.filterMap_cons, hf, hg, List.length_cons]
        have := ih hxs
        omega
    | none =>
      cases hg : g x with
      | some c =>
        simp only [List.filterMap_cons, hf, hg, List.length_cons]
        have := ih hxs
        omega
      | none =>
        rw [hf, hg] at hx
        simp at hx


/-- Claim C10: `_map_expected_to_actual_errors` retains at most one
expected pattern per line, namely the last one in list order; the
retained items are split between `matched_errors` (lines with actual
diagnostics) and `unmatched_expected` (lines without), so those two lists
together have one entry per distinct expected line (possibly fewer than
`total_expected`); a line occurs in `matched_errors` iff it is both
retained and has diagnostics; and every parse error on a line with no
expected pattern contributes its message to `unexpected_errors`. -/
theorem c10_correlation (ps : List ExpectedErrorPattern) (errs : List ParseError) :
    (∀ line : Nat, dictLookup line (expectedByLine ps) =
      ps.reverse.find? (fun p => p.line_number == line)) ∧
    (map_expected_to_actual_errors ps errs).matched_errors.length +
      (map_expected_to_actual_errors ps errs).unmatched_expected.length =
      (ps.map (fun p => p.line_number)).toFinset.card ∧
    (∀ line : Nat,
      (∃ m ∈ (map_expected_to_actual_errors ps errs).matched_errors, m.line = line) ↔
      ((dictLookup line (expectedByLine ps)).isSome = true ∧
       (dictLookup line (actualByLine errs)).isSome = true)) ∧
    (∀ e ∈ errs, (∀ p ∈ ps, p.line_number ≠ e.line_number) →
      e.message ∈ (map_expected_to_actual_errors ps errs).unexpected_errors) := by
  have hm : (map_expected_to_actual_errors ps errs).matched_errors =
      (expectedByLine ps).filterMap (fun le =>
        (dictLookup le.1 (actualByLine errs)).map (fun errs2 =>
          MatchedError.mk le.1 le.2.pattern (errs2.map (fun e => e.message)))) := rfl
  have hu : (map_expected_to_actual_errors ps errs).unmatched_expected =
      (expectedByLine ps).filterMap (fun le =>
        match dictLookup le.1 (actualByLine errs) with
        | some _ => none
        | none => some le.2.pattern) := rfl
  have hx : (map_expected_to_actual_errors ps errs).unexpected_errors =
      (actualByLine errs).flatMap (fun le =>
        match dictLookup le.1 (expectedByLine ps) with
        | some _ => []
        | none => le.2.map (fun e => e.message)) := rfl
  refine ⟨fun line => expectedByLine_lookup line ps, ?_, ?_, ?_⟩
  · rw [hm, hu, length_filterMap_add _ _ _ ?_, ← expectedByLine_length]
    intro le _
    cases dictLookup le.1 (actualByLine errs) <;> simp
  · intro line
    constructor
    · rintro ⟨m, hmem, hline⟩
      rw [hm] at hmem
      obtain ⟨le, hle, hF⟩ := List.mem_filterMap.mp hmem
      cases habl : dictLookup le.1 (actualByLine errs) with
      | none => rw [habl] at hF; cases hF
      | some b =>
        rw [habl] at hF
        cases hF
        subst hline
        constructor
        · rw [dictLookup_of_mem (expectedByLine_keys_nodup ps)
            (show (le.1, le.2) ∈ expectedByLine ps from hle)]
          rfl
        · rw [habl]; rfl
    · rintro ⟨he, ha⟩
      cases hebl : dictLookup line (expectedByLine ps) with
      | none => rw [hebl] at he; cases he
      | some p =>
        cases habl : dictLookup line (actualByLine errs) with
        | none => rw [habl] at ha; cases ha
        | some b =>
          refine ⟨MatchedError.mk line p.pattern (b.map (fun e => e.message)), ?_, rfl⟩
          rw [hm]
          refine List.mem_filterMap.mpr ⟨(line, p), mem_of_dictLookup hebl, ?_⟩
          rw [habl]
          rfl
  · intro e he hnone
    have hfe : (e.line_number == e.line_number) = true := beq_iff_eq.mpr rfl
    have hfilter : e ∈ errs.filter (fun x => x.line_number == e.line_number) :=
      List.mem_filter.mpr ⟨he, hfe⟩
    have hnil : errs.filter (fun x => x.line_number == e.line_number) ≠ [] :=
      List.ne_nil_of_mem hfilter
    have habl : dictLookup e.line_number (actualByLine errs) =
        some (errs.filter (fun x => x.line_number == e.line_number)) := by
      rw [actualByLine_lookup, if_neg hnil]
    have hpair := mem_of_dictLookup habl
    have hebl : dictLookup e.line_number (expectedByLine ps) = none := by
      rw [expectedByLine_lookup]
      refine List.find?_eq_none.mpr ?_
      intro p hp
      have hne : p.line_number ≠ e.line_number := hnone p (List.mem_reverse.mp hp)
      simp [hne]
    rw [hx]
    refine List.mem_flatMap.mpr ⟨(e.line_number,
      errs.filter (fun x => x.line_number == e.line_number)), hpair, ?_⟩
    rw [hebl]
    exact List.mem_map.mpr ⟨e, hfilter, rfl⟩

/-- Witness for claim C10: a diagnostic on line 2 with the only expected
pattern on line 1 lands in `unexpected_errors`. -/
theorem c10_correlation_witness :
    "boom" ∈ (map_expected_to_actual_errors
      [ExpectedErrorPattern.mk "pat" "general_error" none 1]
      [ParseError.mk "syntax_error" "boom" 2 1 "3"]).unexpected_errors :=
  (c10_correlation [ExpectedErrorPattern.mk "pat" "general_error" none 1]
      [ParseError.mk "syntax_error" "boom" 2 1 "3"]).2.2.2
    (ParseError.mk "syntax_error" "boom" 2 1 "3")
    (List.mem_singleton.mpr rfl)
    (by decide)


/-! ## Serialization round-trip lemmas (claim C2) -/


/-- Element-wise decoding inverts element-wise encoding. -/
theorem decodeList_map {α : Type} (f : PyVal → Option α) (enc : α → PyVal)
    (h : ∀ a, f (enc a) = some a) : ∀ l : List α, decodeList f (l.map enc) = some l := by
  intro l
  induction l with
  | nil => rfl
  | cons a l ih => simp [decodeList, h, ih]

/-- String lists decode back from their serialization. -/
theorem decodeStrList_map (l : List String) :
    decodeStrList (.plist (l.map .pstr)) = some l := by
  simp only [decodeStrList]
  exact decodeList_map PyVal.asStr PyVal.pstr (fun a => rfl) l

/-- `OpenMPDirective(**asdict(d))` restores the directive. -/
theorem directive_from_to_dict (d : OpenMPDirective) :
    OpenMPDirective.from_dict (.pdict d.to_dict) = some d := by
  obtain ⟨nm, cl, ln, col, ft⟩ := d
  simp [OpenMPDirective.to_dict, OpenMPDirective.from_dict, dget,
    PyVal.asStr, PyVal.asNat, PyVal.asInt, decodeStrList_map, Int.toNat']


/-- `CompilerStage(stage.value)` restores the member. -/
theorem stage_of_value_value (c : CompilerStage) : CompilerStage.ofValue c.value = some c := by
  cases c <;> rfl

/-- `TestCategory(category.value)` restores the member. -/
theorem category_of_value_value (c : TestCategory) : TestCategory.ofValue c.value = some c := by
  cases c <;> rfl

/-- Optional strings decode back from their serialization. -/
theorem asOptStr_optStrToPy (o : Option String) : PyVal.asOptStr (optStrToPy o) = some o := by
  cases o <;> rfl

/-- `ASTNode(**asdict(n))` restores the node summary. -/
theorem astnode_from_to_dict (n : ASTNode) : ASTNode.from_dict (.pdict n.to_dict) = some n := by
  obtain ⟨a, b, c, d, e⟩ := n
  simp [ASTNode.to_dict, ASTNode.from_dict, dget, PyVal.asStr, PyVal.asNat,
    PyVal.asBool, Int.toNat']

/-- `ParseError(**asdict(e))` restores the diagnostic. -/
theorem parseerror_from_to_dict (e : ParseError) : ParseError.from_dict (.pdict e.to_dict) = some e := by
  obtain ⟨a, b, c, d, f⟩ := e
  simp [ParseError.to_dict, ParseError.from_dict, dget, PyVal.asStr, PyVal.asNat, Int.toNat']

/-- `ExpectedErrorPattern(**asdict(p))` restores the annotation. -/
theorem eep_from_to_dict (p : ExpectedErrorPattern) :
    ExpectedErrorPattern.from_dict (.pdict p.to_dict) = some p := by
  obtain ⟨a, b, c, d⟩ := p
  simp [ExpectedErrorPattern.to_dict, ExpectedErrorPattern.from_dict, dget,
    PyVal.asStr, PyVal.asNat, asOptStr_optStrToPy, Int.toNat']

/-- `NegativeTestCharacteristics(**asdict(n))` restores the profile,
including the untyped correlation dict passed through unchanged. -/
theorem ntc_from_to_dict (n : NegativeTestCharacteristics) :
    NegativeTestCharacteristics.from_dict (.pdict n.to_dict) = some n := by
  obtain ⟨a, b, c, d, e⟩ := n
  simp [NegativeTestCharacteristics.to_dict, NegativeTestCharacteristics.from_dict,
    dget, PyVal.asBool, PyVal.asNat, asOptStr_optStrToPy, decodeStrList_map, Int.toNat']

/-- Directive lists decode back from their serialization. -/
theorem decodeDirectiveList_map (l : List OpenMPDirective) :
    decodeDirectiveList (.plist (l.map (fun d => .pdict d.to_dict))) = some l := by
  simp only [decodeDirectiveList]
  exact decodeList_map _ _ directive_from_to_dict l

/-- AST-node lists decode back from their serialization. -/
theorem decodeAstNodeList_map (l : List ASTNode) :
    decodeAstNodeList (.plist (l.map (fun n => .pdict n.to_dict))) = some l := by
  simp only [decodeAstNodeList]
  exact decodeList_map _ _ astnode_from_to_dict l

/-- Parse-error lists decode back from their serialization. -/
theorem decodeParseErrorList_map (l : List ParseError) :
    decodeParseErrorList (.plist (l.map (fun e => .pdict e.to_dict))) = some l := by
  simp only [decodeParseErrorList]
  exact decodeList_map _ _ parseerror_from_to_dict l

/-- Expected-error-pattern lists decode back from their serialization. -/
theorem decodeEEPList_map (l : List ExpectedErrorPattern) :
    decodeEEPList (.plist (l.map (fun p => .pdict p.to_dict))) = some l := by
  simp only [decodeEEPList]
  exact decodeList_map _ _ eep_from_to_dict l

/-- The first field group decodes back from `to_dict` output. -/
theorem fromDictA_to_dict (p : TestPattern) :
    fromDictA (TestPattern.to_dict p) =
      some (p.file_path, p.file_name, p.file_size, p.compiler_stage,
        p.run_commands, p.compiler_flags, p.openmp_directives, p.openmp_version) := by
  simp [TestPattern.to_dict, fromDictA, dget, PyVal.asStr, PyVal.asNat,
    decodeStage, decodeCategory, stage_of_value_value, category_of_value_value, asOptStr_optStrToPy,
    decodeStrList_map, decodeDirectiveList_map, Int.toNat']


/-- The second field group decodes back from `to_dict` output. -/
theorem fromDictB_to_dict (p : TestPattern) :
    fromDictB (TestPattern.to_dict p) =
      some (p.test_category, p.check_patterns, p.expected_errors,
        p.expected_warnings, p.ast_nodes, p.function_declarations,
        p.variable_declarations, p.ir_patterns, p.runtime_calls) := by
  simp [TestPattern.to_dict, fromDictB, dget, PyVal.asStr,
    decodeCategory, category_of_value_value, decodeStrList_map, decodeAstNodeList_map]

/-- The third field group decodes back from `to_dict` output. -/
theorem fromDictC_to_dict (p : TestPattern) :
    fromDictC (TestPattern.to_dict p) =
      some (p.parse_errors, p.expected_error_patterns,
        p.negative_test_characteristics, p.error_trigger_mechanisms,
        p.error_types, p.complexity_score, p.line_count, p.created_timestamp) := by
  simp [TestPattern.to_dict, fromDictC, dget, PyVal.asStr, PyVal.asNat,
    decodeStrList_map, decodeParseErrorList_map, decodeEEPList_map, ntc_from_to_dict, Int.toNat']

/-- Claim C2: serialization round-trips — `TestPattern.from_dict`
applied to `TestPattern.to_dict` restores the record in every field,
including the nested directive/AST-node/parse-error/expected-pattern
lists, the negative-test profile, both enum fields and the creation
timestamp. -/
theorem c2_roundtrip (p : TestPattern) :
    TestPattern.from_dict (TestPattern.to_dict p) = some p := by
  simp [TestPattern.from_dict, fromDictA_to_dict, fromDictB_to_dict, fromDictC_to_dict]


end OMPPattern
